import Mathlib

/-!
Verification of the atpg-toolkit engine layer against its design notes.

The Python package is shallowly embedded below.  Pure enums and dataclasses
become inductive types and structures; methods become functions; every
Python exception becomes a `PyErr` value threaded through `Except`; the
sweep loop of the forward simulator is expressed as structural recursion on
the list of unprocessed gates (a sweep in which no gate is ready while some
remain corresponds to an infinite Python loop and is reported as
`PyErr.nonterm`); the recursive PODEM search takes explicit fuel
(`PyErr.fuelOut` when exhausted).  Python `set` iteration order is
arbitrary; the embedding fixes the deterministic order in which gates were
declared in the netlist, which is one of the orders the CPython runtime can
produce.  CPython set membership for `Fault` values compares the stored
hash (which covers both fields) before `__eq__`, so fault *sets* behave
structurally in both components; they are modelled as `Finset Fault`.
-/

namespace ATPG

/-- Python exception kinds raised by the toolkit, plus two embedding
markers: `nonterm` for a provably infinite Python loop and `fuelOut` for
exhausted recursion fuel. -/
inductive PyErr where
  | typeError (msg : String)
  | valueError (msg : String)
  | netlistFormatError (msg : String)
  | invalidNetError (msg : String)
  | keyError
  | assertionError
  | stopIteration
  | nonterm
  | fuelOut
deriving DecidableEq, Repr

instance {ε α : Type} [DecidableEq ε] [DecidableEq α] : DecidableEq (Except ε α) := by
  intro a b
  cases a <;> cases b
  case error.error e₁ e₂ =>
    exact if h : e₁ = e₂ then .isTrue (by rw [h]) else .isFalse (by simp [h])
  case error.ok _ _ => exact .isFalse (by simp)
  case ok.error _ _ => exact .isFalse (by simp)
  case ok.ok a₁ a₂ =>
    exact if h : a₁ = a₂ then .isTrue (by rw [h]) else .isFalse (by simp [h])

/-- `logic.Logic`: the 5-valued state of a net. -/
inductive Logic where
  | high
  | low
  | D
  | Dbar
  | X
deriving DecidableEq, Repr, Fintype

namespace Logic

/-- `Logic.__invert__`. -/
def invert : Logic → Logic
  | .low => .high
  | .high => .low
  | .D => .Dbar
  | .Dbar => .D
  | .X => .X

/-- `Logic.__or__` with the Python method's order of checks. -/
def lor (a b : Logic) : Logic :=
  if a = .high ∨ b = .high then .high
  else if a = .X ∨ b = .X then .X
  else if a = .low then b
  else if b = .low then a
  else if a = b then a
  else .high

/-- `Logic.__and__` with the Python method's order of checks. -/
def land (a b : Logic) : Logic :=
  if a = .low ∨ b = .low then .low
  else if a = .X ∨ b = .X then .X
  else if a = .high then b
  else if b = .high then a
  else if a = b then a
  else .low

/-- `Logic.__xor__`: defined only for `high`/`low` operands; for any other
operand both `__xor__` and the reflected form return `NotImplemented`, so
the interpreter raises a `TypeError`. -/
def lxor (a b : Logic) : Except PyErr Logic :=
  if (a = .low ∨ a = .high) ∧ (b = .low ∨ b = .high) then
    if a = b then .ok .low else .ok .high
  else
    .error (.typeError "unsupported operand type for xor on Logic")

/-- `Logic.__str__`. -/
def pyStr : Logic → String
  | .high => "1"
  | .low => "0"
  | .D => "D"
  | .Dbar => "D̅"
  | .X => "X"

/-- `Logic(char)` for the characters fault-free and fault simulation accept. -/
def ofChar : Char → Logic
  | '1' => .high
  | '0' => .low
  | _ => .X

end Logic

/-- `types.NetId = int | str`. -/
inductive NetId where
  | num (n : Int)
  | str (s : String)
deriving DecidableEq, Repr

/-- `str(net_id)` as used when formatting messages and terminators. -/
def NetId.pyStr : NetId → String
  | .num n => toString n
  | .str s => s

/-- `logic.Fault`: a net with a single stuck-at fault.  The dataclass is
declared `eq=True, order=True, frozen=True` with
`stuck_at: Logic = field(hash=True, compare=False)`. -/
structure Fault where
  net_id : NetId
  stuck_at : Logic
deriving DecidableEq, Repr

/-- `Fault.__post_init__`: constructing a fault whose `stuck_at` is not
`high` or `low` raises `TypeError`. -/
def mkFault (n : NetId) (s : Logic) : Except PyErr Fault :=
  if s = .low ∨ s = .high then .ok ⟨n, s⟩
  else .error (.typeError "Stuck at must be set to a High or Low Logic value")

/-- The dataclass-generated `Fault.__eq__`: it compares the tuples of
compare-enabled fields, which is `(net_id,)` because `stuck_at` is declared
`compare=False`. -/
def faultPyEq (a b : Fault) : Bool :=
  a.net_id = b.net_id

/-- The tuple of hash-enabled fields fed to the dataclass-generated
`Fault.__hash__` (`hash((net_id, stuck_at))`): `stuck_at` is declared
`field(hash=True)`, so it participates in the hash though not in
equality. -/
def faultHashTuple (a : Fault) : NetId × Logic :=
  (a.net_id, a.stuck_at)

/-- Python `<` on net ids: ints compare by value, strings lexicographically,
and a mixed int/str comparison raises `TypeError`. -/
def netIdLt (a b : NetId) : Except PyErr Bool :=
  match a, b with
  | .num x, .num y => .ok (decide (x < y))
  | .str x, .str y => .ok (decide (x < y))
  | _, _ => .error (.typeError "'<' not supported between instances of 'int' and 'str'")

/-- The dataclass-generated `Fault.__lt__`: it compares the tuples of
compare-enabled fields, i.e. `(net_id,) < (other.net_id,)`; `stuck_at`
does not participate. -/
def faultLt (a b : Fault) : Except PyErr Bool :=
  netIdLt a.net_id b.net_id

/-- `gates.GateType`. -/
inductive GateType where
  | inv
  | buf
  | and
  | or
  | nor
  | nand
deriving DecidableEq, Repr

namespace GateType

/-- `GateType.min_inputs`. -/
def min_inputs : GateType → Nat
  | .inv | .buf => 1
  | _ => 2

/-- `GateType.control_value`. -/
def control_value : GateType → Option Logic
  | .and | .nand => some .low
  | .or | .nor => some .high
  | .buf | .inv => none

/-- `GateType.inversion`. -/
def inversion : GateType → Logic
  | .and | .or | .buf => .low
  | .nand | .nor | .inv => .high

/-- Membership test `keyword in GateType` on the `StrEnum` values. -/
def ofKeyword : String → Option GateType
  | "INV" => some .inv
  | "BUF" => some .buf
  | "AND" => some .and
  | "OR" => some .or
  | "NOR" => some .nor
  | "NAND" => some .nand
  | _ => none

end GateType

/-- `gates.Gate`: a frozen dataclass of a type, the ordered input nets and
the single output net. -/
structure Gate where
  type_ : GateType
  inputs : List NetId
  output : NetId
deriving DecidableEq, Repr

/-- `Gate.__post_init__`: fewer inputs than the type's minimum arity is a
`TypeError`. -/
def mkGate (t : GateType) (inputs : List NetId) (output : NetId) : Except PyErr Gate :=
  if inputs.length < t.min_inputs then
    .error (.typeError "Gate must have enough inputs for its type")
  else .ok ⟨t, inputs, output⟩

/-- `Gate.evaluate`: a match on exactly the supported (type, arity)
combinations; anything else raises `TypeError`. -/
def Gate.evaluate (g : Gate) (input_states : List Logic) : Except PyErr Logic :=
  match g.type_, input_states with
  | .inv, [s] => .ok s.invert
  | .buf, [s] => .ok s
  | .and, [a, b] => .ok (a.land b)
  | .or, [a, b] => .ok (a.lor b)
  | .nor, [a, b] => .ok (a.lor b).invert
  | .nand, [a, b] => .ok (a.land b).invert
  | _, _ => .error (.typeError "Gate not supported")

/-- `Gate.control_value`. -/
def Gate.control_value (g : Gate) : Option Logic :=
  g.type_.control_value

/-- `Gate.inversion`. -/
def Gate.inversion (g : Gate) : Logic :=
  g.type_.inversion

/-! ## Netlist parsing (`circuit.Circuit`) -/

/-- Helper for `pySplit`: walk the characters, accumulating the current
token reversed. -/
def splitWsAux : List Char → List Char → List String
  | [], acc => if acc = [] then [] else [String.mk acc.reverse]
  | c :: cs, acc =>
    if c.isWhitespace then
      if acc = [] then splitWsAux cs []
      else String.mk acc.reverse :: splitWsAux cs []
    else splitWsAux cs (c :: acc)

/-- Python `str.split()` with no argument: split on runs of whitespace,
discarding empty pieces. -/
def pySplit (s : String) : List String :=
  splitWsAux s.data []

/-- Value of a nonempty all-digit character list. -/
def digitsToNat : List Char → Option Nat
  | [] => some 0
  | c :: cs =>
    if c.isDigit then
      (digitsToNat cs).map (fun rest => (c.toNat - '0'.toNat) * 10 ^ cs.length + rest)
    else none

/-- Base-10 `int(token)` on a whitespace-free token: an optional sign
followed by at least one digit. -/
def pyInt : String → Option Int
  | s =>
    match s.data with
    | [] => none
    | '-' :: rest =>
      if rest = [] then none else (digitsToNat rest).map (fun n => -(n : Int))
    | '+' :: rest =>
      if rest = [] then none else (digitsToNat rest).map (fun n => (n : Int))
    | l => (digitsToNat l).map (fun n => (n : Int))

/-- `util.try_as_int`: net tokens that parse as integers become integer
ids, anything else stays a symbolic string id. -/
def try_as_int (tok : String) : NetId :=
  match pyInt tok with
  | some n => .num n
  | none => .str tok

/-- `circuit.Circuit`: the immutable bundle built by the factory.  The
Python `gates` and `nets` sets are kept as duplicate-free lists in first
insertion order (one of the iteration orders a CPython set can have). -/
structure Circuit where
  inputs : List NetId
  outputs : List NetId
  gates : List Gate
  gate_output_nets : List NetId
  nets : List NetId
deriving DecidableEq, Repr

/-- Add to a duplicate-free list, keeping first-insertion order. -/
def insertNew (l : List NetId) (n : NetId) : List NetId :=
  if n ∈ l then l else l ++ [n]

/-- `Circuit.add_gate`. -/
def add_gate (c : Circuit) (t : GateType) (inputs : List NetId) (output : NetId) :
    Except PyErr Circuit :=
  if output ∈ c.gate_output_nets then
    .error (.netlistFormatError "Invalid topology: gate output already driven by another gate.")
  else
    match mkGate t inputs output with
    | .error _ => .error (.netlistFormatError "Error adding gate: Invalid gate definition.")
    | .ok g =>
      .ok { c with
            gate_output_nets := c.gate_output_nets ++ [output]
            nets := inputs.foldl insertNew (insertNew c.nets output)
            gates := c.gates ++ [g] }

/-- `Circuit.add_inputs`. -/
def add_inputs (c : Circuit) (net_ids : List NetId) : Except PyErr Circuit :=
  if net_ids.any (fun n => n ∉ c.nets) then
    .error (.netlistFormatError "Undefined input net(s) encountered.")
  else if net_ids.any (fun n => n ∈ c.gate_output_nets) then
    .error (.netlistFormatError "Invalid input net(s): primary inputs conflict with existing gate outputs.")
  else .ok { c with inputs := c.inputs ++ net_ids }

/-- `Circuit.add_outputs`. -/
def add_outputs (c : Circuit) (net_ids : List NetId) : Except PyErr Circuit :=
  if net_ids.any (fun n => n ∉ c.nets) then
    .error (.netlistFormatError "Undefined output net(s) encountered.")
  else .ok { c with outputs := c.outputs ++ net_ids }

/-- One line of `Circuit.load_strings`'s loop body. -/
def loadLine (c : Circuit) (line : String) : Except PyErr Circuit :=
  match pySplit line with
  | [] => .error (.valueError "not enough values to unpack")
  | keyword :: rawNets =>
    let nets := rawNets.map try_as_int
    match GateType.ofKeyword keyword with
    | some t =>
      match nets.getLast? with
      | none => .error (.valueError "not enough values to unpack")
      | some out_id => add_gate c t nets.dropLast out_id
    | none =>
      if keyword = "INPUT" then
        match nets.getLast? with
        | none => .error (.valueError "not enough values to unpack")
        | some e =>
          if e.pyStr ≠ "-1" then
            .error (.netlistFormatError "INPUT must be terminated with -1")
          else add_inputs c nets.dropLast
      else if keyword = "OUTPUT" then
        match nets.getLast? with
        | none => .error (.valueError "not enough values to unpack")
        | some e =>
          if e.pyStr ≠ "-1" then
            .error (.netlistFormatError "OUTPUT must be terminated with -1")
          else add_outputs c nets.dropLast
      else .error (.netlistFormatError "Error in net-list: Unknown gate type")

/-- `Circuit.load_strings`: the factory over a list of netlist lines. -/
def load_strings (netlist : List String) : Except PyErr Circuit :=
  netlist.foldlM loadLine ⟨[], [], [], [], []⟩

/-! ## Forward simulation (`simulator.BaseSim` and subclasses) -/

/-- The `_net_states` mapping.  A later binding for the same key shadows an
earlier one, so cons is `set_state` and the first hit is the current
value. -/
abbrev SimMap := List (NetId × Logic)

/-- Per-net fault lists (`_fault_lists`). -/
abbrev FlMap := List (NetId × Finset Fault)

/-- First-hit association lookup (`dict.__getitem__` as an `Option`). -/
def alookup {β : Type} : List (NetId × β) → NetId → Option β
  | [], _ => none
  | (k, v) :: rest, n => if k = n then some v else alookup rest n

/-- `BaseSim.get_state`: nets missing from the mapping read as `X`. -/
def get_state (m : SimMap) (n : NetId) : Logic :=
  (alookup m n).getD .X

/-- Whether a net is present in the state mapping (`id in self._net_states`). -/
def assignedIn (m : SimMap) (n : NetId) : Bool :=
  (alookup m n).isSome

/-- One or more sweeps of `BaseSim._make_implications`: evaluate every
gate whose inputs are all assigned, remove those gates, and sweep again.
A sweep in which no unprocessed gate is ready while some remain makes the
Python `while` loop spin forever; the embedding reports that as `nonterm`.
The `Nat` argument only bounds the recursion; every sweep that recurses
removes at least one gate, so starting it at `gates.length + 1` it can
reach zero only with an empty gate list. -/
def sweeps {σ : Type} (step : σ → Gate → Except PyErr σ)
    (ready : σ → Gate → Bool) : Nat → σ → List Gate → Except PyErr σ
  | 0, s, gates => if gates = [] then .ok s else .error .nonterm
  | fuel + 1, s, gates =>
    if gates.filter (ready s) = [] then
      if gates = [] then .ok s else .error .nonterm
    else
      match (gates.filter (ready s)).foldlM step s with
      | .error e => .error e
      | .ok s' => sweeps step ready fuel s' (gates.filter (fun g => !(ready s g)))

/-- `BaseSim._make_implications`. -/
def make_implications {σ : Type} (step : σ → Gate → Except PyErr σ)
    (ready : σ → Gate → Bool) (s : σ) (gates : List Gate) : Except PyErr σ :=
  sweeps step ready (gates.length + 1) s gates

/-- Gate readiness over a plain net-state mapping. -/
def readyOn (m : SimMap) (g : Gate) : Bool :=
  g.inputs.all (assignedIn m)

/-- `Simulation._process_ready_gate` followed by the `set_state` performed
by `BaseSim._make_implications`: the fault-free per-gate step. -/
def fault_free_step (m : SimMap) (g : Gate) : Except PyErr SimMap :=
  if readyOn m g then
    match g.evaluate (g.inputs.map (get_state m)) with
    | .error e => .error e
    | .ok v => .ok ((g.output, v) :: m)
  else .error (.valueError "Cannot evaluate a gate with unassigned inputs.")

/-- `util.bitstring_to_logic`: the shared vector parser; it accepts the
alphabet {0, 1, X} and raises `TypeError` on anything else. -/
def bitstring_to_logic (s : String) : Except PyErr (List Logic) :=
  if s.data.all (fun c => c = '0' ∨ c = '1' ∨ c = 'X') then
    .ok (s.data.map Logic.ofChar)
  else .error (.typeError "Input string must contain only 0s, 1s and Xs")

/-- `util.logic_to_bitstring`: join of `str(v)` over the vector. -/
def logic_to_bitstring (vector : List Logic) : String :=
  String.join (vector.map Logic.pyStr)

/-- Assign primary inputs from an ordered vector (`BaseSim._simulate_input`'s
seeding loop, with `BaseSim.set_state` writes). -/
def seedInputs (inputs : List NetId) (vector : List Logic) (m : SimMap) : SimMap :=
  (inputs.zip vector).foldl (fun acc p => (p.1, p.2) :: acc) m

/-- `Simulation.simulate_input`: fault-free simulation of a vector string,
formatting the primary outputs back to a string. -/
def simulate_input (c : Circuit) (input_str : String) : Except PyErr String := do
  let vector ← bitstring_to_logic input_str
  if vector.length ≠ c.inputs.length then
    .error (.valueError "Input vector length must match the number of input nets")
  else do
    let m := seedInputs c.inputs vector []
    let m ← make_implications fault_free_step readyOn m c.gates
    pure (logic_to_bitstring (c.outputs.map (get_state m)))

/-! ## Deductive fault simulation (`faultsim.FaultSimulation`) -/

/-- Union of a list of fault sets (`set.union(*sets, set())`). -/
def listUnion (sets : List (Finset Fault)) : Finset Fault :=
  sets.foldl (fun a b => a ∪ b) ∅

/-- `self._fault_lists[net]` for several nets; a missing net raises
`KeyError`. -/
def flLookups (fl : FlMap) (nets : List NetId) : Except PyErr (List (Finset Fault)) :=
  nets.mapM (fun n =>
    match alookup fl n with
    | some s => Except.ok s
    | none => Except.error PyErr.keyError)

/-- `FaultSimulation._process_ready_gate` followed by the write-back done
by `BaseSim._make_implications`: propagate input fault lists through one
gate and evaluate its fault-free output. -/
def fault_step (st : SimMap × FlMap) (g : Gate) : Except PyErr (SimMap × FlMap) := do
  let m := st.1
  let fl := st.2
  let input_states := g.inputs.map (get_state m)
  let controlling :=
    (((g.inputs.zip input_states).filter (fun p => some p.2 = g.control_value)).map Prod.fst).dedup
  let non_controlling := g.inputs.dedup.filter (fun n => n ∉ controlling)
  let ncSets ← flLookups fl non_controlling
  let propagated := listUnion ncSets
  let propagated ←
    if controlling = [] then pure propagated
    else do
      let cSets ← flLookups fl controlling
      match cSets with
      | [] => pure propagated
      | s :: rest => pure ((rest.foldl (fun a b => a ∩ b) s) \ propagated)
  let output_state ← g.evaluate input_states
  let propagated ←
    if output_state ≠ .X then do
      let f ← mkFault g.output output_state.invert
      pure (insert f propagated)
    else pure propagated
  pure ((g.output, output_state) :: m, (g.output, propagated) :: fl)

/-- Readiness for the fault simulator's paired state. -/
def readyOnF (st : SimMap × FlMap) (g : Gate) : Bool :=
  readyOn st.1 g

/-- `FaultSimulation.detect_faults`: seed per-input fault lists, run the
forward pass, and take the union of the fault lists on the primary
outputs. -/
def detect_faults (c : Circuit) (test_vector : String) : Except PyErr (Finset Fault) := do
  let vector ← bitstring_to_logic test_vector
  let fl : FlMap := (c.inputs.zip vector).foldl
    (fun acc p =>
      (p.1, if p.2 = .X then (∅ : Finset Fault) else ({⟨p.1, p.2.invert⟩} : Finset Fault)) :: acc) []
  if vector.length ≠ c.inputs.length then
    .error (.valueError "Input vector length must match the number of input nets")
  else do
    let m := seedInputs c.inputs vector []
    let st ← make_implications fault_step readyOnF (m, fl) c.gates
    let oSets ← flLookups st.2 c.outputs
    pure (listUnion oSets)

/-! ## PODEM (`podem.ErrorSim` and `podem.TestGenerator`) -/

/-- `ErrorSim.set_state`: D-injection at the target fault's net. -/
def inject (fault : Fault) (n : NetId) (v : Logic) : Logic :=
  if n = fault.net_id then
    match v, fault.stuck_at with
    | .high, .low => .D
    | .low, .high => .Dbar
    | _, _ => v
  else v

/-- A write through the overridden `set_state`. -/
def set_state_inj (fault : Fault) (m : SimMap) (n : NetId) (v : Logic) : SimMap :=
  (n, inject fault n v) :: m

/-- The `BaseSim` per-gate step as seen by `ErrorSim`: plain evaluation,
written back through the D-injecting `set_state`. -/
def error_step (fault : Fault) (m : SimMap) (g : Gate) : Except PyErr SimMap :=
  match g.evaluate (g.inputs.map (get_state m)) with
  | .error e => .error e
  | .ok v => .ok (set_state_inj fault m g.output v)

/-- `ErrorSim.start_state`: clear the state, then give every primary input
an explicit `X`. -/
def start_state (c : Circuit) (fault : Fault) : SimMap :=
  c.inputs.foldl (fun m pi => set_state_inj fault m pi .X) []

/-- `ErrorSim.simulate_input_assignment`: snapshot the primary-input
values, clear, restore them, overwrite one input, and run implications. -/
def simulate_input_assignment (c : Circuit) (fault : Fault) (m : SimMap)
    (pi_net : NetId) (value : Logic) : Except PyErr SimMap :=
  if pi_net ∉ c.inputs then
    .error (.valueError "Net is not a Primary Input (PI)")
  else
    let prev := c.inputs.map (get_state m)
    let m1 := (c.inputs.zip prev).foldl (fun acc p => set_state_inj fault acc p.1 p.2) []
    let m2 := set_state_inj fault m1 pi_net value
    make_implications (error_step fault) readyOn m2 c.gates

/-- `ErrorSim.build_d_frontier`: gates whose output is `X` with at least
one `D`/`D̅` input, in netlist declaration order. -/
def build_d_frontier (c : Circuit) (m : SimMap) : List Gate :=
  c.gates.filter (fun g =>
    get_state m g.output = .X &&
    g.inputs.any (fun n => get_state m n = .D || get_state m n = .Dbar))

/-- `TestGenerator`'s mutable searcher state: the `ErrorSim` net states and
the cached D-frontier. -/
structure TgState where
  map : SimMap
  d_frontier : List Gate
deriving Repr

/-- `TestGenerator.output_to_gate`: the gate driving a net; for a dict
comprehension the later binding wins. -/
def output_to_gate (c : Circuit) (n : NetId) : Option Gate :=
  c.gates.reverse.find? (fun g => g.output = n)

/-- `TestGenerator.pick_unset_input`: the first `X`-valued input of a gate;
an exhausted generator raises `StopIteration`. -/
def pick_unset_input (m : SimMap) (g : Gate) : Except PyErr NetId :=
  match g.inputs.find? (fun n => get_state m n = .X) with
  | some n => .ok n
  | none => .error .stopIteration

/-- `TestGenerator.check_success`: some primary output carries `D`/`D̅`. -/
def check_success (c : Circuit) (m : SimMap) : Bool :=
  c.outputs.any (fun n => get_state m n = .D || get_state m n = .Dbar)

/-- `TestGenerator.check_failure`: the fault is masked, or activated with
an empty D-frontier. -/
def check_failure (fault : Fault) (st : TgState) : Bool :=
  get_state st.map fault.net_id = fault.stuck_at ||
    (get_state st.map fault.net_id ≠ .X && st.d_frontier.isEmpty)

/-- `TestGenerator.objective`: activate the fault, else drive a D-frontier
gate's unset input to the non-controlling value.  `next(iter(set))` on an
empty frontier raises `StopIteration`; the `assert control_value is not
None` for an `INV`/`BUF` frontier gate raises `AssertionError`. -/
def objective (fault : Fault) (st : TgState) : Except PyErr (NetId × Logic) :=
  if get_state st.map fault.net_id = .X then
    .ok (fault.net_id, fault.stuck_at.invert)
  else
    match st.d_frontier with
    | [] => .error .stopIteration
    | g :: _ => do
      let net ← pick_unset_input st.map g
      match g.control_value with
      | none => .error .assertionError
      | some cv => pure (net, cv.invert)

/-- `TestGenerator.backtrace`: walk backwards along `X`-valued wires,
XOR-ing inversion parities, until an undriven net is reached; the
`assert net in self.sim.circuit.inputs` raises `AssertionError` when that
net is not a declared primary input.  The walk follows one driving gate per
step; `fuelOut` stands for the non-termination of the Python `while` loop
on a cyclic walk. -/
def backtrace (c : Circuit) (m : SimMap) : Nat → NetId → Logic → Except PyErr (NetId × Logic)
  | 0, _, _ => .error .fuelOut
  | fuel + 1, net, state =>
    match output_to_gate c net with
    | some g => do
      let state' ← state.lxor g.inversion
      let next ← pick_unset_input m g
      backtrace c m fuel next state'
    | none =>
      if net ∈ c.inputs then .ok (net, state)
      else .error .assertionError

/-- `TestGenerator.imply`: assign one primary input, forward-simulate, and
refresh the cached D-frontier. -/
def imply (c : Circuit) (fault : Fault) (st : TgState) (pi_net : NetId) (value : Logic) :
    Except PyErr TgState := do
  let m ← simulate_input_assignment c fault st.map pi_net value
  pure ⟨m, build_d_frontier c m⟩

/-- `TestGenerator.podem`: the literal textbook recursion, with explicit
fuel for the recursion depth. -/
def podem (c : Circuit) (fault : Fault) : Nat → TgState → Except PyErr (Bool × TgState)
  | 0, _ => .error .fuelOut
  | fuel + 1, st => do
    if check_success c st.map then pure (true, st)
    else if check_failure fault st then pure (false, st)
    else do
      let (net, value) ← objective fault st
      let (pi_net, pv) ← backtrace c st.map (c.gates.length + 1) net value
      let st1 ← imply c fault st pi_net pv
      let (r1, st2) ← podem c fault fuel st1
      if r1 then pure (true, st2)
      else do
        let st3 ← imply c fault st2 pi_net pv.invert
        let (r2, st4) ← podem c fault fuel st3
        if r2 then pure (true, st4)
        else do
          let st5 ← imply c fault st4 pi_net .X
          pure (false, st5)

/-- `podem.filter_errors`: format primary-input values, replacing `D` with
`1` and `D̅` with `0`. -/
def filter_errors (vector : List Logic) : String :=
  String.join (vector.map (fun v =>
    match v with
    | .D => "1"
    | .Dbar => "0"
    | v => v.pyStr))

/-- `TestGenerator.generate_test` (for a freshly constructed generator,
whose cached D-frontier starts empty): `InvalidNetError` for an unknown
net, otherwise run PODEM and format the vector, or `None` when the search
fails. -/
def generate_test (c : Circuit) (fault : Fault) (fuel : Nat) :
    Except PyErr (Option String) :=
  if fault.net_id ∉ c.nets then
    .error (.invalidNetError "Net for Fault does not exist in the circuit.")
  else do
    let st0 : TgState := ⟨start_state c fault, []⟩
    let (success, stF) ← podem c fault fuel st0
    if success then
      pure (some (filter_errors (c.inputs.map (get_state stF.map))))
    else
      pure none

/-! ## Theorems -/

@[simp]
theorem except_bind_ok {ε α β : Type} (a : α) (f : α → Except ε β) :
    (Except.ok a >>= f) = f a := rfl

@[simp]
theorem except_bind_error {ε α β : Type} (e : ε) (f : α → Except ε β) :
    ((Except.error e : Except ε α) >>= f) = .error e := rfl

/-- C8: The 5-valued Logic operators satisfy the stated algebra laws:
double inversion is the identity, `|` and `&` are idempotent and
commutative, `~D = D̅` and `~D̅ = D`, `D & D̅ = 0` and `D | D̅ = 1`,
`X & 0 = 0`, `X | 1 = 1`, `X & 1 = X`, `X | 0 = X`, and on the boolean
subdomain `x | ~x = 1` and `x & ~x = 0`. -/
theorem logic_algebra_laws :
    (∀ x : Logic, x.invert.invert = x) ∧
    (∀ x : Logic, x.lor x = x) ∧
    (∀ x : Logic, x.land x = x) ∧
    (∀ a b : Logic, a.lor b = b.lor a) ∧
    (∀ a b : Logic, a.land b = b.land a) ∧
    Logic.D.invert = Logic.Dbar ∧
    Logic.Dbar.invert = Logic.D ∧
    Logic.D.land Logic.Dbar = Logic.low ∧
    Logic.D.lor Logic.Dbar = Logic.high ∧
    Logic.X.land Logic.low = Logic.low ∧
    Logic.X.lor Logic.high = Logic.high ∧
    Logic.X.land Logic.high = Logic.X ∧
    Logic.X.lor Logic.low = Logic.X ∧
    Logic.low.lor Logic.low.invert = Logic.high ∧
    Logic.low.land Logic.low.invert = Logic.low ∧
    Logic.high.lor Logic.high.invert = Logic.high ∧
    Logic.high.land Logic.high.invert = Logic.low := by
  decide

/-- C10: The dataclass equality of `Fault` ignores `stuck_at`
(`compare=False`) while the hash covers it (`field(hash=True)`): the two
faults on one net are `==`-equal yet feed different tuples to `hash`, so
equal faults need not hash alike. -/
theorem fault_eq_vs_hash (n : NetId) :
    faultPyEq ⟨n, .low⟩ ⟨n, .high⟩ = true ∧
    faultHashTuple ⟨n, .low⟩ ≠ faultHashTuple ⟨n, .high⟩ := by
  constructor
  · simp [faultPyEq]
  · intro h
    exact Logic.noConfusion (congrArg Prod.snd h)

/-- C3 counterexample: with the same net id, the stuck-at-0 fault does
*not* compare strictly before the stuck-at-1 fault (both directions of `<`
are false because `stuck_at` is `compare=False`), and comparing an integer
net id with a string net id raises `TypeError` instead of ordering the
integer first. -/
theorem fault_lt_same_net_cex :
    faultLt ⟨.num 1, .low⟩ ⟨.num 1, .high⟩ = .ok false ∧
    faultLt ⟨.num 1, .high⟩ ⟨.num 1, .low⟩ = .ok false ∧
    faultLt ⟨.num 1, .low⟩ ⟨.str "a", .low⟩ =
      .error (.typeError "'<' not supported between instances of 'int' and 'str'") := by
  refine ⟨?_, ?_, rfl⟩ <;> decide

/-- C3 amended: `Fault` ordering compares `net_id` only; two faults with
the same net id are order-equivalent whatever their `stuck_at`, net ids of
one kind order naturally within that kind, and an int/str mixed comparison
raises `TypeError` rather than putting integers first. -/
theorem fault_lt_net_id_only :
    (∀ a b : Fault, a.net_id = b.net_id → faultLt a b = .ok false) ∧
    (∀ (n : Int) (s : String) (x y : Logic),
      faultLt ⟨.num n, x⟩ ⟨.str s, y⟩ =
        .error (.typeError "'<' not supported between instances of 'int' and 'str'")) := by
  constructor
  · intro a b h
    unfold faultLt netIdLt
    rw [h]
    cases b.net_id with
    | num n => simp
    | str s => simp
  · intro n s x y
    rfl

/-- Witness for `fault_lt_net_id_only` at a concrete pair of faults. -/
theorem fault_lt_net_id_only_witness :
    faultLt ⟨.num 7, .low⟩ ⟨.num 7, .high⟩ = .ok false :=
  fault_lt_net_id_only.1 ⟨.num 7, .low⟩ ⟨.num 7, .high⟩ rfl

/-- C7 counterexample: a 3-input AND gate passes `Gate.__post_init__`
(its arity is at least the minimum of 2) but `Gate.evaluate` raises
`TypeError` on it, so evaluation is not total on all accepted gates. -/
theorem gate_arity_eval_cex :
    mkGate .and [.num 1, .num 2, .num 3] (.num 4) =
      .ok ⟨.and, [.num 1, .num 2, .num 3], .num 4⟩ ∧
    Gate.evaluate ⟨.and, [.num 1, .num 2, .num 3], .num 4⟩ [.high, .high, .high] =
      .error (.typeError "Gate not supported") := by
  exact ⟨rfl, rfl⟩

/-- C7 amended: `Gate.evaluate` is total exactly at the minimum arity —
one input for INV/BUF and two for AND/OR/NAND/NOR; gates accepted by the
constructor with more inputs than that raise `TypeError` when evaluated. -/
theorem gate_eval_min_arity_total (g : Gate) (states : List Logic)
    (hs : states.length = g.inputs.length)
    (hm : g.inputs.length = g.type_.min_inputs) :
    ∃ v, g.evaluate states = .ok v := by
  cases g with
  | mk t inputs output =>
    simp only at hs hm
    cases t <;> simp [GateType.min_inputs] at hm <;> rw [hm] at hs
    case inv =>
      obtain ⟨a, rfl⟩ := List.length_eq_one.mp hs
      exact ⟨a.invert, rfl⟩
    case buf =>
      obtain ⟨a, rfl⟩ := List.length_eq_one.mp hs
      exact ⟨a, rfl⟩
    all_goals
      match states, hs with
      | [a, b], _ => exact ⟨_, rfl⟩

/-- Witness for `gate_eval_min_arity_total` at a concrete 2-input OR. -/
theorem gate_eval_min_arity_total_witness :
    ∃ v, Gate.evaluate ⟨.or, [.num 1, .num 2], .num 3⟩ [.low, .D] = .ok v :=
  gate_eval_min_arity_total ⟨.or, [.num 1, .num 2], .num 3⟩ [.low, .D] rfl rfl

/-! ### Concrete circuits used by the scenario claims -/

/-- The single-NOR netlist of the fault-list scenario. -/
def norLines : List String := ["NOR 1 2 3", "INPUT 1 2 -1", "OUTPUT 3 -1"]

/-- The fault set the deductive simulator actually reports for `"10"`. -/
def norDetected : Finset Fault := {⟨.num 1, .low⟩, ⟨.num 3, .high⟩}

/-- The fault set the claim asserts for `"10"`. -/
def norClaimed : Finset Fault := {⟨.num 1, .high⟩, ⟨.num 3, .high⟩}

/-- C2 counterexample: on the NOR netlist, `detect_faults("10")` is
`{Fault(1, sa0), Fault(3, sa1)}` — not the claimed
`{Fault(1, sa1), Fault(3, sa1)}`; the stuck-at-1 fault on net 1 is absent
because net 1 already carries 1. -/
theorem nor_detect_faults_cex :
    (do
      let c ← load_strings norLines
      detect_faults c "10") = .ok norDetected ∧
    norDetected ≠ norClaimed := by
  constructor
  · decide
  · decide

/-- C2 amended: `detect_faults("10")` on the NOR netlist returns exactly
`{Fault(1, stuck-at 0), Fault(3, stuck-at 1)}` (matching the repository's
own unit test). -/
theorem nor_detect_faults_value :
    (do
      let c ← load_strings norLines
      detect_faults c "10") = .ok norDetected := by
  decide

/-- A one-inverter netlist. -/
def invLines : List String := ["INV 1 2", "INPUT 1 -1", "OUTPUT 2 -1"]

/-- C4 counterexample: fault-free `simulate_input` does *not* reject a
vector containing `X` — the shared vector parser admits the alphabet
{0, 1, X} — and an output that remains `X` is formatted as `'X'`, not
`'?'`. -/
theorem simulate_input_x_cex :
    (do
      let c ← load_strings invLines
      simulate_input c "X") = .ok "X" := by
  decide

/-- C4 amended: `Simulation.simulate_input` accepts vectors over the
alphabet {0, 1, X} — any other character raises `TypeError` — and a
primary output that remains `X` is formatted as `'X'` in the returned
string. -/
theorem simulate_input_alphabet :
    (∀ (c : Circuit) (s : String),
      (∃ ch ∈ s.data, ¬(ch = '0' ∨ ch = '1' ∨ ch = 'X')) →
      ∃ m, simulate_input c s = .error (.typeError m)) ∧
    (do
      let c ← load_strings invLines
      simulate_input c "X") = .ok "X" := by
  constructor
  · intro c s h
    refine ⟨"Input string must contain only 0s, 1s and Xs", ?_⟩
    have hneg : ¬((s.data.all fun c => decide (c = '0' ∨ c = '1' ∨ c = 'X')) = true) := by
      intro htrue
      obtain ⟨ch, hmem, hch⟩ := h
      exact hch (of_decide_eq_true (List.all_eq_true.mp htrue ch hmem))
    unfold simulate_input bitstring_to_logic
    rw [if_neg hneg]
    rfl
  · decide

/-- Witness for `simulate_input_alphabet` at a concrete bad character. -/
theorem simulate_input_alphabet_witness :
    ∃ m, simulate_input ⟨[], [], [], [], []⟩ "2" = .error (.typeError m) :=
  simulate_input_alphabet.1 ⟨[], [], [], [], []⟩ "2" ⟨'2', by decide, by decide⟩

/-- C5 counterexample: a wrong-length vector is rejected with Python's
built-in `ValueError`, not with a distinct `InvalidVectorError` kind (the
package defines only `NetlistFormatError` and `InvalidNetError`). -/
theorem wrong_length_cex :
    (do
      let c ← load_strings invLines
      simulate_input c "00") =
      .error (.valueError "Input vector length must match the number of input nets") ∧
    (do
      let c ← load_strings invLines
      detect_faults c "00") =
      .error (.valueError "Input vector length must match the number of input nets") := by
  exact ⟨by decide, by decide⟩

/-- C5 amended: for every vector over the accepted alphabet whose length
differs from the number of primary inputs, both `simulate_input` and
`detect_faults` reject it synchronously by raising `ValueError`. -/
theorem wrong_length_value_error (c : Circuit) (s : String)
    (halpha : ∀ ch ∈ s.data, ch = '0' ∨ ch = '1' ∨ ch = 'X')
    (hlen : s.length ≠ c.inputs.length) :
    simulate_input c s =
      .error (.valueError "Input vector length must match the number of input nets") ∧
    detect_faults c s =
      .error (.valueError "Input vector length must match the number of input nets") := by
  have hpos : (s.data.all fun c => decide (c = '0' ∨ c = '1' ∨ c = 'X')) = true := by
    apply List.all_eq_true.mpr
    intro ch hm
    exact decide_eq_true (halpha ch hm)
  have hmap : (s.data.map Logic.ofChar).length ≠ c.inputs.length := by
    rw [List.length_map, String.length_data]
    exact hlen
  constructor
  · unfold simulate_input bitstring_to_logic
    rw [if_pos hpos, except_bind_ok, if_pos hmap]
  · unfold detect_faults bitstring_to_logic
    rw [if_pos hpos, except_bind_ok, if_pos hmap]

/-- Witness for `wrong_length_value_error` at a concrete circuit. -/
theorem wrong_length_value_error_witness :
    simulate_input ⟨[], [], [], [], []⟩ "0" =
      .error (.valueError "Input vector length must match the number of input nets") ∧
    detect_faults ⟨[], [], [], [], []⟩ "0" =
      .error (.valueError "Input vector length must match the number of input nets") :=
  wrong_length_value_error ⟨[], [], [], [], []⟩ "0" (by decide) (by decide)

/-! ### Circuit construction invariants -/

/-- The builder invariant threaded through `load_strings`: every recorded
gate's output is registered in `gate_output_nets`, and no two gates share
an output. -/
def CircuitInv (c : Circuit) : Prop :=
  (∀ g ∈ c.gates, g.output ∈ c.gate_output_nets) ∧
  c.gates.Pairwise (fun g₁ g₂ => g₁.output ≠ g₂.output)

theorem add_gate_inv {c c' : Circuit} {t : GateType} {ins : List NetId} {out : NetId}
    (hinv : CircuitInv c) (h : add_gate c t ins out = .ok c') : CircuitInv c' := by
  unfold add_gate at h
  split at h
  · exact absurd h (by simp)
  · next hout =>
    split at h
    · exact absurd h (by simp)
    · next g hg =>
      have hgeq : g = ⟨t, ins, out⟩ := by
        unfold mkGate at hg
        split at hg
        · exact absurd hg (by simp)
        · exact (Except.ok.injEq _ _).mp hg.symm
      obtain rfl : { c with
          gate_output_nets := c.gate_output_nets ++ [out]
          nets := ins.foldl insertNew (insertNew c.nets out)
          gates := c.gates ++ [g] } = c' := (Except.ok.injEq _ _).mp h
      constructor
      · intro g' hg'
        rcases List.mem_append.mp hg' with hl | hr
        · exact List.mem_append_left _ (hinv.1 g' hl)
        · have : g' = g := by simpa using hr
          subst this
          rw [hgeq]
          exact List.mem_append_right _ (by simp)
      · apply List.pairwise_append.mpr
        refine ⟨hinv.2, by simp, ?_⟩
        intro a ha b hb
        have hb' : b = g := by simpa using hb
        subst hb'
        intro hcontra
        apply hout
        have hmem := hinv.1 a ha
        rw [hcontra, hgeq] at hmem
        exact hmem

theorem add_inputs_inv {c c' : Circuit} {ids : List NetId}
    (hinv : CircuitInv c) (h : add_inputs c ids = .ok c') : CircuitInv c' := by
  unfold add_inputs at h
  split at h
  · exact absurd h (by simp)
  · split at h
    · exact absurd h (by simp)
    · obtain rfl : { c with inputs := c.inputs ++ ids } = c' := (Except.ok.injEq _ _).mp h
      exact hinv

theorem add_outputs_inv {c c' : Circuit} {ids : List NetId}
    (hinv : CircuitInv c) (h : add_outputs c ids = .ok c') : CircuitInv c' := by
  unfold add_outputs at h
  split at h
  · exact absurd h (by simp)
  · obtain rfl : { c with outputs := c.outputs ++ ids } = c' := (Except.ok.injEq _ _).mp h
    exact hinv

theorem loadLine_inv {c c' : Circuit} {line : String}
    (hinv : CircuitInv c) (h : loadLine c line = .ok c') : CircuitInv c' := by
  unfold loadLine at h
  dsimp only at h
  split at h
  · exact absurd h (by simp)
  · split at h
    · split at h
      · exact absurd h (by simp)
      · exact add_gate_inv hinv h
    · split at h
      · split at h
        · exact absurd h (by simp)
        · split at h
          · exact absurd h (by simp)
          · exact add_inputs_inv hinv h
      · split at h
        · split at h
          · exact absurd h (by simp)
          · split at h
            · exact absurd h (by simp)
            · exact add_outputs_inv hinv h
        · exact absurd h (by simp)

theorem load_fold_inv {lines : List String} {c₀ c : Circuit}
    (hinv : CircuitInv c₀) (h : lines.foldlM loadLine c₀ = .ok c) : CircuitInv c := by
  induction lines generalizing c₀ with
  | nil =>
    rw [List.foldlM_nil] at h
    have h' : Except.ok c₀ = Except.ok c := h
    obtain rfl : c₀ = c := (Except.ok.injEq _ _).mp h'
    exact hinv
  | cons l ls ih =>
    rw [List.foldlM_cons] at h
    cases hstep : loadLine c₀ l with
    | error e => rw [hstep, except_bind_error] at h; exact absurd h (by simp)
    | ok c₁ =>
      rw [hstep, except_bind_ok] at h
      exact ih (loadLine_inv hinv hstep) h

/-- The self-looped AND netlist: net 3 is both an input and the output of
the only gate. -/
def cycLines : List String := ["AND 2 3 3", "INPUT 2 -1", "OUTPUT 3 -1"]

/-- The circuit the factory actually returns for `cycLines`. -/
def cycCircuit : Circuit :=
  ⟨[.num 2], [.num 3], [⟨.and, [.num 2, .num 3], .num 3⟩], [.num 3], [.num 3, .num 2]⟩

/-- C6 counterexample: the factory accepts a netlist whose gate graph has
a cycle — the AND gate drives net 3 which is also one of its own inputs —
returning a `Circuit` instead of failing with `NetlistFormatError`. -/
theorem cyclic_netlist_cex :
    load_strings cycLines = .ok cycCircuit ∧
    (⟨.and, [.num 2, .num 3], .num 3⟩ : Gate) ∈ cycCircuit.gates ∧
    (NetId.num 3) ∈ [NetId.num 2, NetId.num 3] := by
  refine ⟨by decide, by decide, by decide⟩

/-- C6 amended: circuits returned by `load_strings` satisfy the enforced
per-line invariants — in particular the single-driver rule: no two gates of
the result share an output net — but the builder performs no acyclicity
check, so a cyclic netlist can construct successfully. -/
theorem load_strings_single_driver (lines : List String) (c : Circuit)
    (h : load_strings lines = .ok c) :
    c.gates.Pairwise (fun g₁ g₂ => g₁.output ≠ g₂.output) := by
  have hinv : CircuitInv ⟨[], [], [], [], []⟩ := ⟨by simp, by simp⟩
  exact (load_fold_inv hinv h).2

/-- Witness for `load_strings_single_driver` at the NOR netlist. -/
theorem load_strings_single_driver_witness :
    (Circuit.gates ⟨[.num 1, .num 2], [.num 3],
      [⟨.nor, [.num 1, .num 2], .num 3⟩], [.num 3],
      [.num 3, .num 1, .num 2]⟩).Pairwise (fun g₁ g₂ => g₁.output ≠ g₂.output) :=
  load_strings_single_driver norLines _ (by decide)

/-! ### PODEM against the deductive simulator -/

/-- A netlist the builder accepts in which a gate declared *after* the
`INPUT` line drives the declared primary input `p` (`add_inputs` rejects
such a conflict, but `add_gate` performs no symmetric check). -/
def bugLines : List String := ["AND p q r", "INPUT p q -1", "BUF q p", "OUTPUT r -1"]

/-- The circuit the factory returns for `bugLines`. -/
def bugCircuit : Circuit :=
  ⟨[.str "p", .str "q"], [.str "r"],
   [⟨.and, [.str "p", .str "q"], .str "r"⟩, ⟨.buf, [.str "q"], .str "p"⟩],
   [.str "r", .str "p"], [.str "r", .str "p", .str "q"]⟩

/-- The target fault: `p` stuck-at 1. -/
def bugFault : Fault := ⟨.str "p", .high⟩

/-- What the deductive fault simulator reports for the generated test. -/
def bugDetected : Finset Fault :=
  {⟨.str "r", .low⟩, ⟨.str "p", .low⟩, ⟨.str "q", .low⟩}

/-- C1: On `bugLines`, `generate_test` for `p` stuck-at 1 succeeds with
the test `"11"`, yet `detect_faults("11")` on the same netlist returns
`{r-sa-0, p-sa-0, q-sa-0}`, which does not contain the target fault: the
generated test is *not* confirmed by the deductive simulator.  (PODEM's
success comes from a sweep in which the AND gate reads `p` before the
buffer overwrites it.) -/
theorem podem_unconfirmed_test :
    load_strings bugLines = .ok bugCircuit ∧
    bugFault.net_id ∈ bugCircuit.nets ∧
    generate_test bugCircuit bugFault 20 = .ok (some "11") ∧
    detect_faults bugCircuit "11" = .ok bugDetected ∧
    bugFault ∉ bugDetected := by
  refine ⟨by decide, by decide, by decide, by decide, by decide⟩

/-- A netlist the builder accepts in which gate-input net 2 is neither
driven by a gate nor declared a primary input. -/
def dangLines : List String := ["AND 1 2 3", "INPUT 1 -1", "OUTPUT 3 -1"]

/-- The circuit the factory returns for `dangLines`. -/
def dangCircuit : Circuit :=
  ⟨[.num 1], [.num 3], [⟨.and, [.num 1, .num 2], .num 3⟩], [.num 3],
   [.num 3, .num 1, .num 2]⟩

/-- The target fault: the dangling net 2 stuck-at 0. -/
def dangFault : Fault := ⟨.num 2, .low⟩

theorem dang_stuck (v : Logic) (fl : FlMap) :
    make_implications fault_step readyOnF
      (seedInputs dangCircuit.inputs [v] [], fl) dangCircuit.gates =
      .error .nonterm := rfl

/-- The dangling-net fault is undetectable in the strongest sense: no
vector string makes `detect_faults` return at all (the AND gate never
becomes ready, so the Python sweep loop never terminates; short vectors
and bad alphabets raise instead). -/
theorem dang_detect_always_errors (s : String) :
    ∃ e, detect_faults dangCircuit s = .error e := by
  unfold detect_faults
  cases hb : bitstring_to_logic s with
  | error e =>
    exact ⟨e, by rw [except_bind_error]⟩
  | ok vector =>
    by_cases hl : vector.length = dangCircuit.inputs.length
    · have h1 : vector.length = 1 := by simpa [dangCircuit] using hl
      obtain ⟨v, rfl⟩ := List.length_eq_one.mp h1
      refine ⟨.nonterm, ?_⟩
      rw [except_bind_ok, if_neg (fun hne => hne hl)]
      simp only [dang_stuck, except_bind_error]
    · refine ⟨.valueError "Input vector length must match the number of input nets", ?_⟩
      rw [except_bind_ok, if_pos hl]

/-- C9: For the stuck-at-0 fault on the existing but undriven net 2 of
`dangLines` — a fault no input pattern can detect — `generate_test` does
not return `None`: the `assert net in self.sim.circuit.inputs` in
`backtrace` fails, raising `AssertionError` (the fault's net is in the
circuit, so this is not the documented `InvalidNetError` path either). -/
theorem dangling_net_break :
    load_strings dangLines = .ok dangCircuit ∧
    dangFault.net_id ∈ dangCircuit.nets ∧
    generate_test dangCircuit dangFault 5 = .error .assertionError ∧
    (∀ s : String, ∃ e, detect_faults dangCircuit s = .error e) := by
  refine ⟨by decide, by decide, by decide, dang_detect_always_errors⟩

end ATPG
